import Mathlib

/-!
# JACK output plugin (`jack.c`): shallow embedding and verified properties

The plugin keeps its state in file-level variables and talks to three outside
parties: the JACK server, the host player (`deadbeef->...`) and libc.  The
embedding threads the file-level variables through every function as a record
(`World`) and records every outside call, together with the answer it got, in
an event log kept in the same record; the log also records the stores to the
`jack_connected` flag and to the port buffers and the entries of `jack_init`
and `jack_free_deadbeef`.  The answers come from an `Env`: a family of oracles
indexed by the number of outside calls made so far, so a universally
quantified `Env` covers every sequence of outcomes.

Floating point arithmetic is kept abstract: the sample type `F` and the three
operations the code applies to it are parameters (`FloatOps`).
-/

namespace Jack

/-! ## Constants and machine integers -/

/-- The macro `CHANNELS`. -/
def CHANNELS : Nat := 2

/-- The macro `JACK_CLIENT_NAME`. -/
def JACK_CLIENT_NAME : String := "deadbeef"

/-- Conversion of a C `int` to `unsigned` (32 bit). -/
def toUnsigned (x : Int) : Nat := (x % 4294967296).toNat

/-- Conversion of a 32-bit unsigned value to C `int`. -/
def toInt32 (x : Nat) : Int :=
  if x % 4294967296 < 2147483648 then (x % 4294967296 : Nat) else ((x % 4294967296 : Nat) : Int) - 4294967296

/-- Conversion of a C `int` to `short` (16 bit), as in a store to `errcode`. -/
def toShort (x : Int) : Int := (x + 32768) % 65536 - 32768

/-- Modelled from the spec: the host header that declares the output states
is not among the sources; the spec gives PlaybackState as one of Stopped,
Playing, Paused. -/
inductive PlaybackState
  | Stopped
  | Playing
  | Paused
  deriving DecidableEq, Repr

/-- The two functions of `jack.c` whose calls are counted: the entry of each
is logged. -/
inductive Fn
  | jack_init
  | jack_free_deadbeef
  deriving DecidableEq, Repr

/-- An argument of a `fprintf` call: `%d` or `%s` (a null pointer is `none`). -/
inductive Arg
  | int (v : Int)
  | str (s : Option String)
  deriving DecidableEq, Repr

/-- The abstract floating point operations used by the realtime callback. -/
structure FloatOps (F : Type) where
  /-- Conversion of an integer to `float`. -/
  ofInt : Int → F
  /-- Product of two `float`s. -/
  mul : F → F → F
  /-- Quotient of two `float`s. -/
  div : F → F → F

/-- The expression `(float)s * vol / 32768`. -/
def convert {F : Type} (ops : FloatOps F) (s : Int) (vol : F) : F :=
  ops.div (ops.mul (ops.ofInt s) vol) (ops.ofInt 32768)

/-! ## Events -/

/-- What the log records: the entry of `jack_init` and of
`jack_free_deadbeef`, a store to the `jack_connected` flag, a store through
one of the port buffer pointers, and each call that leaves the file, with its
arguments and its answer.  A pointer is an `Option`, `none` being the null
pointer. -/
inductive Event (F : Type)
  | enter (fn : Fn)
  | store_connected (v : Int)
  | write (chan pos : Nat) (val : F)
  | conf_get_int (key : String) (dflt ret : Int)
  | jack_client_open (name : String) (options : Nat) (ret : Option Nat) (status : Nat)
  | jack_get_sample_rate (ch : Option Nat) (ret : Nat)
  | jack_set_process_callback (ch : Option Nat) (ret : Int)
  | jack_set_sample_rate_callback (ch : Option Nat) (ret : Int)
  | jack_on_shutdown (ch : Option Nat)
  | jack_port_register (ch : Option Nat) (name : String) (ret : Option Nat)
  | jack_activate (ch : Option Nat) (ret : Int)
  | jack_get_ports (ch : Option Nat) (ret : Option (List String))
  | jack_connect (ch : Option Nat) (src : String) (dst : Option String) (ret : Int)
  | jack_client_close (ch : Option Nat) (ret : Int)
  | jack_port_get_buffer (port : Option Nat) (nframes : Nat)
  | streamer_read (size : Int) (ret : Int) (buf : List Nat)
  | streamer_reset (flag : Int)
  | volume_get_amp (ret : F)
  | playback_stop
  | sleep (secs : Nat)
  | fprintf (fmt : String) (args : List Arg)

/-- The outside world.  The first argument of every oracle is the number of
outside calls made before this one.  The three `Jack...` values are the
constants of the JACK header and `WORDS_BIGENDIAN` the configuration macro,
none of which is defined in `jack.c`. -/
structure Env (F : Type) where
  JackNullOption : Nat
  JackNoStartServer : Nat
  JackServerStarted : Nat
  WORDS_BIGENDIAN : Bool
  conf_get_int : Nat → String → Int → Int
  /-- Answers the client pointer and the value stored through `&jack_status`. -/
  jack_client_open : Nat → String → Nat → Option Nat × Nat
  jack_get_sample_rate : Nat → Option Nat → Nat
  jack_set_process_callback : Nat → Option Nat → Int
  jack_set_sample_rate_callback : Nat → Option Nat → Int
  jack_port_register : Nat → Option Nat → String → Option Nat
  jack_activate : Nat → Option Nat → Int
  /-- Answers the array of port names up to its null terminator, or null. -/
  jack_get_ports : Nat → Option Nat → Option (List String)
  jack_connect : Nat → Option Nat → String → Option String → Int
  jack_client_close : Nat → Option Nat → Int
  /-- The accessor `jack_port_name`; it is not logged. -/
  jack_port_name : Option Nat → String
  /-- Answers the return value and the bytes of `buf` after the call. -/
  streamer_read : Nat → Int → Int × List Nat
  volume_get_amp : Nat → F

/-- The file-level variables of `jack.c`, the count `now` of outside calls
made so far and the event log. -/
structure World (F : Type) where
  ch : Option Nat
  jack_status : Nat
  jack_ports : Nat → Option Nat
  state : PlaybackState
  errcode : Int
  jack_connected : Int
  DidWeStartJack : Int
  rate : Int
  now : Nat
  log : List (Event F)

variable {F : Type}

/-- Append an event that is not an outside call. -/
def emit (e : Event F) (w : World F) : World F :=
  { w with log := w.log ++ [e] }

/-- Append an outside call and advance the call count. -/
def call (e : Event F) (w : World F) : World F :=
  { w with log := w.log ++ [e], now := w.now + 1 }

/-- Store `p` in `jack_ports[i]`. -/
def setPort (ports : Nat → Option Nat) (i : Nat) (p : Option Nat) : Nat → Option Nat :=
  fun k => if k = i then p else ports k

/-- The element `((int16_t*)buf)[k]`: two consecutive bytes read in the
byte order of the platform. A byte the list does not hold reads as 0. -/
def int16_at (bigEndian : Bool) (buf : List Nat) (k : Nat) : Int :=
  let b0 := buf.getD (2 * k) 0 % 256
  let b1 := buf.getD (2 * k + 1) 0 % 256
  let u := if bigEndian then 256 * b0 + b1 else b0 + 256 * b1
  if u < 32768 then (u : Int) else (u : Int) - 65536

/-! ## The functions of `jack.c` -/

/-- The loops `for (i = 0; i < CHANNELS; i++) jack_port_buffer[i] =
jack_port_get_buffer (jack_ports[i], nframes);`.  The local pointers are kept
as offsets from the start of each port buffer, so they start at 0. -/
def get_buffers (nframes : Nat) (w : World F) : World F :=
  (List.range CHANNELS).foldl
    (fun w i => call (Event.jack_port_get_buffer (w.jack_ports i) nframes) w) w

/-- The inner loop `for (j = 0; j < CHANNELS; j++) *jack_port_buffer[j]++ = val j`:
the state is the array of local pointers and the world. -/
def write_frame (val : Nat → F) (st : (Nat → Nat) × World F) : (Nat → Nat) × World F :=
  (List.range CHANNELS).foldl
    (fun st j =>
      ((fun k => if k = j then st.1 k + 1 else st.1 k),
       emit (Event.write j (st.1 j) (val j)) st.2)) st

/-- The outer loop `for (i = 0; i < frames; i++)` around `write_frame`. -/
def write_frames (frames : Nat) (val : Nat → Nat → F) (w : World F) : World F :=
  ((List.range frames).foldl (fun st i => write_frame (val i) st) (fun _ => 0, w)).2

/-- The argument `sizeof(buf)` of `streamer_read` for `char buf[nframes * CHANNELS * 2]`:
the product is computed in `unsigned` and the parameter is an `int`. -/
def sizeof_buf (nframes : Nat) : Int := toInt32 ((nframes * CHANNELS * 2) % 4294967296)

/-- The function `jack_proc_callback`. -/
def jack_proc_callback (ops : FloatOps F) (env : Env F) (nframes : Nat) (w : World F) :
    Int × World F :=
  if w.jack_connected = 0 then (-1, w)
  else
    match w.state with
    | PlaybackState.Playing =>
      let size := sizeof_buf nframes
      let rd := env.streamer_read w.now size
      let w := call (Event.streamer_read size rd.1 rd.2) w
      let bytesread := toUnsigned rd.1
      if bytesread = toUnsigned (-1) then (0, { w with state := PlaybackState.Stopped })
      else
        let w := get_buffers nframes w
        let vol := env.volume_get_amp w.now
        let w := call (Event.volume_get_amp vol) w
        let w := write_frames (bytesread / (CHANNELS * 2))
          (fun i j => convert ops (int16_at env.WORDS_BIGENDIAN rd.2 (CHANNELS * i + j)) vol) w
        (0, w)
    | _ =>
      let w := get_buffers nframes w
      let w := write_frames nframes (fun _ _ => ops.ofInt 0) w
      (0, w)

/-- The function `jack_stop`. -/
def jack_stop (w0 : World F) : Int × World F :=
  let w := { w0 with state := PlaybackState.Stopped }
  let w := call (Event.streamer_reset 1) w
  (0, w)

/-- The function `jack_pause`. -/
def jack_pause (w : World F) : Int × World F :=
  if w.state = PlaybackState.Stopped then (-1, w)
  else (0, { w with state := PlaybackState.Paused })

/-- The function `jack_free_deadbeef`, which is `plugin.free`. -/
def jack_free_deadbeef (env : Env F) (w0 : World F) : Int × World F :=
  let w := emit (Event.enter Fn.jack_free_deadbeef) w0
  let w := emit (Event.store_connected 0) { w with jack_connected := 0 }
  let w := if w.DidWeStartJack = 0 then call (Event.sleep 1) (jack_stop w).2 else w
  let c : Bool × World F :=
    match w.ch with
    | some h =>
      let r := env.jack_client_close w.now (some h)
      let w := call (Event.jack_client_close (some h) r) w
      if r ≠ 0 then
        (true, call (Event.fprintf "jack: could not disconnect from JACK server\n" []) w)
      else (false, { w with ch := none })
    | none => (false, w)
  if c.1 then (-1, c.2)
  else
    let w := c.2
    let w := if w.DidWeStartJack ≠ 0 then call (Event.sleep 1) w else w
    (0, w)

/-- The statements every failing step of `jack_init` ends with: the
`fprintf`, `plugin.free ()` and `return -1`. -/
def abort_init (env : Env F) (fmt : String) (args : List Arg) (w : World F) : Int × World F :=
  (-1, (jack_free_deadbeef env (call (Event.fprintf fmt args) w)).2)

/-- The string `sprintf (port_name, "deadbeef_%d", i+1)` writes. -/
def port_name (i : Nat) : String := "deadbeef_" ++ toString (i + 1)

/-- The port registration loop of `jack_init`, over the indices still to do.
The flag is true when a registration failed and the function has to return
the result of `abort_init`, which is then the world given back. -/
def register_ports (env : Env F) : List Nat → World F → Bool × World F
  | [], w => (false, w)
  | i :: rest, w =>
    let name := port_name i
    let p := env.jack_port_register w.now w.ch name
    let w := call (Event.jack_port_register w.ch name p)
      { w with jack_ports := setPort w.jack_ports i p }
    match p with
    | none =>
      (true, (abort_init env "jack: could not register port number %d\n" [Arg.int (i + 1)] w).2)
    | some _ => register_ports env rest w

/-- The connection loop of `jack_init`, over the indices still to do;
`playback_ports[i]` is the null terminator when `i` is the length of the
array. The flag is as in `register_ports`. -/
def connect_ports (env : Env F) (playback_ports : List String) :
    List Nat → World F → Bool × World F
  | [], w => (false, w)
  | i :: rest, w =>
    let src := env.jack_port_name (w.jack_ports i)
    let dst := playback_ports.get? i
    let r := env.jack_connect w.now w.ch src dst
    let w := call (Event.jack_connect w.ch src dst r) { w with errcode := toShort r }
    if w.errcode ≠ 0 ∧ w.errcode ≠ 17 then
      (true, (abort_init env "jack: could not create connection from %s to %s, error %d\n"
        [Arg.str (some src), Arg.str dst, Arg.int w.errcode] w).2)
    else connect_ports env playback_ports rest w

/-- The last block of `jack_init`: connecting the ports to the hardware
outputs, and `return 0`. -/
def autoconnect (env : Env F) (w : World F) : Int × World F :=
  let a := env.conf_get_int w.now "jack.autoconnect" 1
  let w := call (Event.conf_get_int "jack.autoconnect" 1 a) w
  if a ≠ 0 then
    let ports := env.jack_get_ports w.now w.ch
    let w := call (Event.jack_get_ports w.ch ports) w
    match ports with
    | none =>
      (0, call (Event.fprintf
        "jack: warning: could not find any playback ports to connect to\n" []) w)
    | some playback_ports =>
      let c := connect_ports env playback_ports (List.range CHANNELS) w
      if c.1 then (-1, c.2) else (0, c.2)
  else (0, w)

/-- The function `jack_init`.  In the options of `jack_client_open` the
operator is the logical `&&`, so `conf_get_int` is called only when
`JackNoStartServer` is not 0 and the operand has the value 0 or 1. -/
def jack_init (env : Env F) (w0 : World F) : Int × World F :=
  let w := emit (Event.enter Fn.jack_init) w0
  let w := emit (Event.store_connected 1) { w with jack_connected := 1 }
  let a : Int × World F :=
    if env.JackNoStartServer ≠ 0 then
      let r := env.conf_get_int w.now "jack.autostart" 1
      (r, call (Event.conf_get_int "jack.autostart" 1 r) w)
    else (1, w)
  let w := a.2
  let options := env.JackNullOption ||| (if env.JackNoStartServer ≠ 0 ∧ a.1 = 0 then 1 else 0)
  let o := env.jack_client_open w.now JACK_CLIENT_NAME options
  let w := call (Event.jack_client_open JACK_CLIENT_NAME options o.1 o.2)
    { w with ch := o.1, jack_status := o.2 }
  if w.ch = none then abort_init env "jack: could not connect to JACK server\n" [] w
  else
    let sr := env.jack_get_sample_rate w.now w.ch
    let w := call (Event.jack_get_sample_rate w.ch sr) { w with rate := toInt32 sr }
    let w := { w with DidWeStartJack := if w.jack_status &&& env.JackServerStarted ≠ 0 then 1 else 0 }
    let r := env.jack_set_process_callback w.now w.ch
    let w := call (Event.jack_set_process_callback w.ch r) { w with errcode := toShort r }
    if w.errcode ≠ 0 then
      abort_init env "jack: could not set process callback, error %d\n" [Arg.int w.errcode] w
    else
      let r := env.jack_set_sample_rate_callback w.now w.ch
      let w := call (Event.jack_set_sample_rate_callback w.ch r) { w with errcode := toShort r }
      if w.errcode ≠ 0 then
        abort_init env "jack: could not set sample rate callback, error %d\n" [Arg.int w.errcode] w
      else
        let w := call (Event.jack_on_shutdown w.ch) w
        let c := register_ports env (List.range CHANNELS) w
        if c.1 then (-1, c.2)
        else
          let w := c.2
          let r := env.jack_activate w.now w.ch
          let w := call (Event.jack_activate w.ch r) { w with errcode := toShort r }
          if w.errcode ≠ 0 then
            abort_init env "jack: could not activate client, error %d\n" [Arg.int w.errcode] w
          else autoconnect env w

/-- The function `jack_play`. -/
def jack_play (env : Env F) (w : World F) : Int × World F :=
  if w.jack_connected = 0 then
    let i := jack_init env w
    if i.1 ≠ 0 then (-1, (jack_free_deadbeef env i.2).2)
    else (0, { i.2 with state := PlaybackState.Playing })
  else (0, { w with state := PlaybackState.Playing })

/-- The function `jack_unpause`. -/
def jack_unpause (env : Env F) (w : World F) : Int × World F :=
  (0, (jack_play env w).2)

/-- The function `jack_shutdown_callback`. -/
def jack_shutdown_callback (env : Env F) (w : World F) : Int × World F :=
  if w.jack_connected = 0 then (-1, w)
  else
    let w := emit (Event.store_connected 0) { w with jack_connected := 0 }
    let a := env.conf_get_int w.now "jack.autorestart" 0
    let w := call (Event.conf_get_int "jack.autorestart" 0 a) w
    if a ≠ 0 then
      let w := call (Event.fprintf "jack: JACK server shut down unexpectedly, restarting...\n" []) w
      let w := call (Event.sleep 1) w
      (0, (jack_init env w).2)
    else
      let w := call (Event.fprintf
        "jack: JACK server shut down unexpectedly, stopping playback\n" []) w
      let w := call (Event.playback_stop) w
      (0, w)

/-! ## The function `jack_init` in parts

The proofs about `jack_init` go part by part.  The parts below are consecutive
pieces of the body above, and `jack_init_stages` states that `jack_init` is
their composition. -/

/-- The part of `jack_init` from the call of `jack_activate` on. -/
def init_activate (env : Env F) (w : World F) : Int × World F :=
  let r := env.jack_activate w.now w.ch
  let w := call (Event.jack_activate w.ch r) { w with errcode := toShort r }
  if w.errcode ≠ 0 then
    abort_init env "jack: could not activate client, error %d\n" [Arg.int w.errcode] w
  else autoconnect env w

/-- The part of `jack_init` from the call of `jack_on_shutdown` on. -/
def init_register (env : Env F) (w : World F) : Int × World F :=
  let w := call (Event.jack_on_shutdown w.ch) w
  let c := register_ports env (List.range CHANNELS) w
  if c.1 then (-1, c.2) else init_activate env c.2

/-- The statements of `jack_init` that set `rate` and `DidWeStartJack`. -/
def init_rate (env : Env F) (w : World F) : World F :=
  let sr := env.jack_get_sample_rate w.now w.ch
  let w := call (Event.jack_get_sample_rate w.ch sr) { w with rate := toInt32 sr }
  { w with DidWeStartJack := if w.jack_status &&& env.JackServerStarted ≠ 0 then 1 else 0 }

/-- The part of `jack_init` from the call of `jack_get_sample_rate` on, which
runs when the client was opened. -/
def init_callbacks (env : Env F) (w : World F) : Int × World F :=
  let w := init_rate env w
  let r := env.jack_set_process_callback w.now w.ch
  let w := call (Event.jack_set_process_callback w.ch r) { w with errcode := toShort r }
  if w.errcode ≠ 0 then
    abort_init env "jack: could not set process callback, error %d\n" [Arg.int w.errcode] w
  else
    let r := env.jack_set_sample_rate_callback w.now w.ch
    let w := call (Event.jack_set_sample_rate_callback w.ch r) { w with errcode := toShort r }
    if w.errcode ≠ 0 then
      abort_init env "jack: could not set sample rate callback, error %d\n" [Arg.int w.errcode] w
    else init_register env w

/-- The first two statements of `jack_init`. -/
def init_entered (w0 : World F) : World F :=
  let w := emit (Event.enter Fn.jack_init) w0
  emit (Event.store_connected 1) { w with jack_connected := 1 }

/-- The operand `deadbeef->conf_get_int ("jack.autostart", 1)` of the options
of `jack_client_open`, evaluated only when `JackNoStartServer` is not 0. -/
def init_autostart (env : Env F) (w : World F) : Int × World F :=
  if env.JackNoStartServer ≠ 0 then
    let r := env.conf_get_int w.now "jack.autostart" 1
    (r, call (Event.conf_get_int "jack.autostart" 1 r) w)
  else (1, w)

/-- The part of `jack_init` up to the call of `jack_client_open`: the world
in which the result of that call is tested. -/
def init_open (env : Env F) (w0 : World F) : World F :=
  let a := init_autostart env (init_entered w0)
  let w := a.2
  let options := env.JackNullOption ||| (if env.JackNoStartServer ≠ 0 ∧ a.1 = 0 then 1 else 0)
  let o := env.jack_client_open w.now JACK_CLIENT_NAME options
  call (Event.jack_client_open JACK_CLIENT_NAME options o.1 o.2)
    { w with ch := o.1, jack_status := o.2 }

/-! ## Vocabulary of the statements -/

/-- The events logged after the world `w0` was taken, up to the world `w1`. -/
def since (w0 w1 : World F) : List (Event F) := w1.log.drop w0.log.length

/-- The stores of `frames` frames in the order of the loops: frame by frame,
channel 0 before channel 1, the value for frame `i` and channel `j` being
`val i j`. -/
def frame_writes (frames : Nat) (val : Nat → Nat → F) : List (Event F) :=
  (List.range frames).flatMap (fun i => [Event.write 0 i (val i 0), Event.write 1 i (val i 1)])

/-- Whether the event is a store into a port buffer. -/
def isWrite : Event F → Bool
  | Event.write _ _ _ => true
  | _ => false

/-- Whether the event is the entry of the function `fn`. -/
def isEnter (fn : Fn) : Event F → Bool
  | Event.enter g => decide (g = fn)
  | _ => false

/-- Whether the event is a call of `playback_stop`. -/
def isPlaybackStop : Event F → Bool
  | Event.playback_stop => true
  | _ => false

/-- Whether the event is a call of `jack_connect`. -/
def isConnect : Event F → Bool
  | Event.jack_connect _ _ _ _ => true
  | _ => false

/-- Whether the event is a step of `jack_init` that failed: a null client or
port pointer, a non-zero code from a callback registration or the activation,
or a code other than 0 and 17 from a connection. -/
def stepFailed : Event F → Bool
  | Event.jack_client_open _ _ ret _ => ret.isNone
  | Event.jack_set_process_callback _ ret => decide (ret ≠ 0)
  | Event.jack_set_sample_rate_callback _ ret => decide (ret ≠ 0)
  | Event.jack_port_register _ _ ret => ret.isNone
  | Event.jack_activate _ ret => decide (ret ≠ 0)
  | Event.jack_connect _ _ _ ret => decide (ret ≠ 0 ∧ ret ≠ 17)
  | _ => false

/-- The same with each code as `jack_init` sees it, stored in the `short`
variable `errcode`. -/
def stepFailedStored : Event F → Bool
  | Event.jack_client_open _ _ ret _ => ret.isNone
  | Event.jack_set_process_callback _ ret => decide (toShort ret ≠ 0)
  | Event.jack_set_sample_rate_callback _ ret => decide (toShort ret ≠ 0)
  | Event.jack_port_register _ _ ret => ret.isNone
  | Event.jack_activate _ ret => decide (toShort ret ≠ 0)
  | Event.jack_connect _ _ _ ret => decide (toShort ret ≠ 0 ∧ toShort ret ≠ 17)
  | _ => false

/-- Whether the event is one `jack_free_deadbeef` can log after its entry and
its store to `jack_connected`. -/
def teardownTail : Event F → Bool
  | Event.streamer_reset _ => true
  | Event.sleep _ => true
  | Event.jack_client_close _ _ => true
  | Event.fprintf _ _ => true
  | _ => false

/-- The events `jack_free_deadbeef` logs, called in the world `w`. -/
def teardown_log (env : Env F) (w : World F) : List (Event F) :=
  since w (jack_free_deadbeef env w).2

/-- Whether the event is a call `jack_init` makes and goes on after: any of
its calls that did not fail, failure being judged on the stored code. -/
def okStep : Event F → Bool
  | Event.conf_get_int _ _ _ => true
  | Event.jack_client_open _ _ ret _ => ret.isSome
  | Event.jack_get_sample_rate _ _ => true
  | Event.jack_set_process_callback _ ret => decide (toShort ret = 0)
  | Event.jack_set_sample_rate_callback _ ret => decide (toShort ret = 0)
  | Event.jack_on_shutdown _ => true
  | Event.jack_port_register _ _ ret => ret.isSome
  | Event.jack_activate _ ret => decide (toShort ret = 0)
  | Event.jack_get_ports _ _ => true
  | Event.jack_connect _ _ _ ret => decide (toShort ret = 0 ∨ toShort ret = 17)
  | Event.fprintf _ _ => true
  | _ => false

/-- The events of `okStep` that come before the connection block. -/
def setupStep : Event F → Bool
  | Event.jack_get_ports _ _ => false
  | Event.jack_connect _ _ _ _ => false
  | e => okStep e

/-- The world `w1` comes from `w0` by events of the class `cls` that leave
the connected flag and the playback state alone. -/
def PassedBy (cls : Event F → Bool) (w0 w1 : World F) : Prop :=
  ∃ l, w1.log = w0.log ++ l ∧ (∀ e ∈ l, cls e = true) ∧
    w1.jack_connected = w0.jack_connected ∧ w1.state = w0.state

/-- The world `w1` comes from `w0` by steps that passed, a step that failed,
the message and the teardown. -/
def Aborted (env : Env F) (w0 w1 : World F) : Prop :=
  ∃ l e fmt args X,
    w1.log = w0.log ++ (l ++ e :: Event.fprintf fmt args :: teardown_log env X) ∧
    (∀ x ∈ l, okStep x = true) ∧ stepFailedStored e = true ∧
    w1.jack_connected = 0 ∧ (w1.state = w0.state ∨ w1.state = PlaybackState.Stopped)

/-- The three forms of the events of the connection block of `jack_init`
when it does not fail: autoconnect is off; no physical playback port was
found; or the ports `ps` were found and each of the two registered ports was
connected to the physical port of its index, with a code stored as 0 or 17. -/
def ConnectBlock (env : Env F) (ch : Option Nat) (ports : Nat → Option Nat)
    (l : List (Event F)) : Prop :=
  l = [Event.conf_get_int "jack.autoconnect" 1 0] ∨
  (∃ a, a ≠ 0 ∧
    l = [Event.conf_get_int "jack.autoconnect" 1 a, Event.jack_get_ports ch none,
      Event.fprintf "jack: warning: could not find any playback ports to connect to\n" []]) ∨
  (∃ a ps r0 r1, a ≠ 0 ∧ (toShort r0 = 0 ∨ toShort r0 = 17) ∧
    (toShort r1 = 0 ∨ toShort r1 = 17) ∧
    l = [Event.conf_get_int "jack.autoconnect" 1 a, Event.jack_get_ports ch (some ps),
      Event.jack_connect ch (env.jack_port_name (ports 0)) (ps.get? 0) r0,
      Event.jack_connect ch (env.jack_port_name (ports 1)) (ps.get? 1) r1])

/-- The world `w1` comes from `w0` by the steps of `jack_init` before the
connection block, all passed, and holds the two registered ports. -/
def SetupDone (w0 w1 : World F) : Prop :=
  ∃ l, w1.log = w0.log ++ l ∧ (∀ e ∈ l, setupStep e = true) ∧
    w1.jack_connected = w0.jack_connected ∧ w1.state = w0.state ∧
    ∀ i, i < CHANNELS → (w1.jack_ports i).isSome = true ∧
      Event.jack_port_register w1.ch (port_name i) (w1.jack_ports i) ∈ l

/-- What a part of `jack_init` that runs to the end of the function, started
after the world `w0`, comes to: failure after an aborted step, or success
after the setup steps `l` and the connection block `c`. -/
def InitOutcome (env : Env F) (w0 : World F) (out : Int × World F) : Prop :=
  (out.1 = -1 ∧ Aborted env w0 out.2) ∨
  (out.1 = 0 ∧ ∃ l c, out.2.log = w0.log ++ (l ++ c) ∧ (∀ e ∈ l, setupStep e = true) ∧
    ConnectBlock env out.2.ch out.2.jack_ports c ∧
    out.2.jack_connected = w0.jack_connected ∧ out.2.state = w0.state ∧
    ∀ i, i < CHANNELS → (out.2.jack_ports i).isSome = true ∧
      Event.jack_port_register out.2.ch (port_name i) (out.2.jack_ports i) ∈ l)

/-- Whether a code is a value of the type `short`. -/
def fitsShort (r : Int) : Bool := decide (-32768 ≤ r ∧ r ≤ 32767)

/-- Whether the code the event carries, if it is one `jack_init` stores in
`errcode`, is a value of the type `short`. -/
def codeFits : Event F → Bool
  | Event.jack_set_process_callback _ ret => fitsShort ret
  | Event.jack_set_sample_rate_callback _ ret => fitsShort ret
  | Event.jack_activate _ ret => fitsShort ret
  | Event.jack_connect _ _ _ ret => fitsShort ret
  | _ => true

/-! ## Concrete inputs -/

/-- The file-level variables as the loader leaves them (all zero), with an
empty log. -/
def World.initial : World F :=
  { ch := none, jack_status := 0, jack_ports := fun _ => none, state := PlaybackState.Stopped,
    errcode := 0, jack_connected := 0, DidWeStartJack := 0, rate := 0, now := 0, log := [] }

/-- Exact rational arithmetic in the place of `float`. -/
def ratOps : FloatOps Rat :=
  { ofInt := fun z => (z : Rat), mul := fun a b => a * b, div := fun a b => a / b }

/-- A little-endian world in which every JACK call succeeds, two physical
playback ports exist, the streamer hands out one frame (the samples 16384
and -16384) and the amplitude is 1/2. -/
def goodEnv : Env Rat :=
  { JackNullOption := 0, JackNoStartServer := 1, JackServerStarted := 8,
    WORDS_BIGENDIAN := false,
    conf_get_int := fun _ _ dflt => dflt,
    jack_client_open := fun _ _ _ => (some 1, 0),
    jack_get_sample_rate := fun _ _ => 44100,
    jack_set_process_callback := fun _ _ => 0,
    jack_set_sample_rate_callback := fun _ _ => 0,
    jack_port_register := fun t _ _ => some (100 + t),
    jack_activate := fun _ _ => 0,
    jack_get_ports := fun _ _ => some ["system:playback_1", "system:playback_2"],
    jack_connect := fun _ _ _ _ => 0,
    jack_client_close := fun _ _ => 0,
    jack_port_name := fun _ => "deadbeef:out",
    streamer_read := fun _ _ => (4, [0, 64, 0, 192]),
    volume_get_amp := fun _ => 1 / 2 }

/-- The world of `goodEnv` with a server that cannot be reached. -/
def refuseEnv : Env Rat :=
  { goodEnv with jack_client_open := fun _ _ _ => (none, 0) }

/-- The world of `goodEnv` with an activation that fails with the code -1. -/
def activateFailEnv : Env Rat :=
  { goodEnv with jack_activate := fun _ _ => -1 }

/-- The world of `goodEnv` with every setting switched on, autorestart too. -/
def restartEnv : Env Rat :=
  { goodEnv with conf_get_int := fun _ _ _ => 1 }

/-- The world of `goodEnv` with a streamer that reports a read error. -/
def readErrorEnv : Env Rat :=
  { goodEnv with streamer_read := fun _ _ => (-1, []) }

/-- The world of `goodEnv` with the two connections already made: each
`jack_connect` answers 17. -/
def connectedEnv : Env Rat :=
  { goodEnv with jack_connect := fun _ _ _ _ => 17 }

/-- The world of `goodEnv` with an activation that fails with the code 65536,
a value of `int` that is no value of `short`. -/
def wideCodeEnv : Env Rat :=
  { goodEnv with jack_activate := fun _ _ => 65536 }

/-- The world of `goodEnv` with connections that fail with the code 65553,
which is 65536 + 17. -/
def wideConnectEnv : Env Rat :=
  { goodEnv with jack_connect := fun _ _ _ _ => 65553 }

/-- A connected world with the given playback state. -/
def connectedWorld (s : PlaybackState) : World Rat :=
  { (World.initial : World Rat) with
    ch := some 1, jack_ports := fun k => some (100 + k), jack_connected := 1, state := s }

/-! ## Auxiliary facts about the loops -/

theorem range_channels : List.range CHANNELS = [0, 1] := rfl

theorem get_buffers_eq (n : Nat) (w : World F) :
    get_buffers n w =
      { w with
        log := w.log ++ [Event.jack_port_get_buffer (w.jack_ports 0) n,
          Event.jack_port_get_buffer (w.jack_ports 1) n],
        now := w.now + 2 } := by
  simp [get_buffers, range_channels, call]

theorem write_frame_eq (val : Nat → F) (k : Nat) (w : World F) :
    write_frame val (fun c => if c < 2 then k else 0, w) =
      (fun c => if c < 2 then k + 1 else 0,
        { w with log := w.log ++ [Event.write 0 k (val 0), Event.write 1 k (val 1)] }) := by
  simp only [write_frame, range_channels, List.foldl, emit]
  refine Prod.ext ?_ ?_
  · funext c
    by_cases h0 : c = 0
    · subst h0; simp
    · by_cases h1 : c = 1
      · subst h1; simp
      · have : ¬ c < 2 := by omega
        simp [h0, h1, this]
  · simp

theorem write_frames_loop (val : Nat → Nat → F) (w : World F) (k : Nat) :
    (List.range k).foldl (fun st i => write_frame (val i) st) (fun c => if c < 2 then 0 else 0, w) =
      (fun c => if c < 2 then k else 0, { w with log := w.log ++ frame_writes k val }) := by
  induction k with
  | zero => simp [frame_writes]
  | succ k ih =>
    rw [List.range_succ, List.foldl_append, ih]
    simp only [List.foldl]
    rw [write_frame_eq]
    simp [frame_writes, List.range_succ]

theorem write_frames_eq (k : Nat) (val : Nat → Nat → F) (w : World F) :
    write_frames k val w = { w with log := w.log ++ frame_writes k val } := by
  have h := write_frames_loop val w k
  simp only [ite_self] at h
  simp [write_frames, h]

theorem mem_frame_writes (k : Nat) (val : Nat → Nat → F) (e : Event F) :
    e ∈ frame_writes k val ↔ ∃ i, i < k ∧ (e = Event.write 0 i (val i 0) ∨ e = Event.write 1 i (val i 1)) := by
  simp [frame_writes]

theorem since_append (w0 w1 : World F) (l : List (Event F)) (h : w1.log = w0.log ++ l) :
    since w0 w1 = l := by
  simp [since, h]

theorem proc_idle_eq (ops : FloatOps F) (env : Env F) (n : Nat) (w : World F)
    (hc : w.jack_connected ≠ 0) (hs : w.state ≠ PlaybackState.Playing) :
    jack_proc_callback ops env n w =
      (0, { w with
        log := w.log ++ (
          Event.jack_port_get_buffer (w.jack_ports 0) n ::
          Event.jack_port_get_buffer (w.jack_ports 1) n ::
          frame_writes n (fun _ _ => ops.ofInt 0)),
        now := w.now + 2 }) := by
  unfold jack_proc_callback
  simp only [hc, if_false]
  simp [get_buffers_eq, write_frames_eq]

theorem proc_playing_eq (ops : FloatOps F) (env : Env F) (n : Nat) (w : World F)
    (hc : w.jack_connected ≠ 0) (hs : w.state = PlaybackState.Playing)
    (hr : toUnsigned (env.streamer_read w.now (sizeof_buf n)).1 ≠ toUnsigned (-1)) :
    jack_proc_callback ops env n w =
      (0, { w with
        log := w.log ++ (
          Event.streamer_read (sizeof_buf n) (env.streamer_read w.now (sizeof_buf n)).1
            (env.streamer_read w.now (sizeof_buf n)).2 ::
          Event.jack_port_get_buffer (w.jack_ports 0) n ::
          Event.jack_port_get_buffer (w.jack_ports 1) n ::
          Event.volume_get_amp (env.volume_get_amp (w.now + 3)) ::
          frame_writes (toUnsigned (env.streamer_read w.now (sizeof_buf n)).1 / 4)
            (fun i j => convert ops
              (int16_at env.WORDS_BIGENDIAN (env.streamer_read w.now (sizeof_buf n)).2 (2 * i + j))
              (env.volume_get_amp (w.now + 3)))),
        now := w.now + 4 }) := by
  unfold jack_proc_callback
  simp only [hc, if_false, hs]
  simp [call, hr, hs, get_buffers_eq, write_frames_eq, CHANNELS]

theorem filter_isWrite_frame_writes (k : Nat) (val : Nat → Nat → F) :
    (frame_writes k val).filter isWrite = frame_writes k val := by
  apply List.filter_eq_self.mpr
  intro e he
  rcases (mem_frame_writes k val e).mp he with ⟨i, _, h | h⟩ <;> simp [h, isWrite]

theorem length_frame_writes (k : Nat) (val : Nat → Nat → F) :
    (frame_writes k val).length = 2 * k := by
  induction k with
  | zero => simp [frame_writes]
  | succ k ih =>
    simp only [frame_writes, List.range_succ, List.flatMap_append, List.length_append] at ih ⊢
    simp [ih]
    omega

theorem write_mem_frame_writes (k : Nat) (val : Nat → Nat → F) (c p : Nat) (v : F) :
    Event.write c p v ∈ frame_writes k val ↔ c < 2 ∧ p < k ∧ v = val p c := by
  rw [mem_frame_writes]
  constructor
  · rintro ⟨i, hi, h | h⟩
    · injection h with h1 h2 h3
      subst h1 h2 h3
      exact ⟨by decide, hi, rfl⟩
    · injection h with h1 h2 h3
      subst h1 h2 h3
      exact ⟨by decide, hi, rfl⟩
  · rintro ⟨hc, hp, hv⟩
    refine ⟨p, hp, ?_⟩
    have h01 : c = 0 ∨ c = 1 := by omega
    rcases h01 with h | h
    · left; rw [h, hv, h]
    · right; rw [h, hv, h]

/-- C1: for every frame count `n`, when connected and Stopped or Paused, one
invocation of `jack_proc_callback` returns 0, leaves the playback state
unchanged and stores the value 0 at exactly the positions below `n` of each of
the 2 port buffers, each once and nothing else: the events of the invocation
are the two `jack_port_get_buffer` calls and those `2 * n` stores. -/
theorem proc_callback_idle_writes_silence (ops : FloatOps F) (env : Env F) (n : Nat)
    (w : World F) (hc : w.jack_connected ≠ 0)
    (hs : w.state = PlaybackState.Stopped ∨ w.state = PlaybackState.Paused) :
    (jack_proc_callback ops env n w).1 = 0 ∧
    (jack_proc_callback ops env n w).2.state = w.state ∧
    (∀ c p v, Event.write c p v ∈ since w (jack_proc_callback ops env n w).2 ↔
      c < CHANNELS ∧ p < n ∧ v = ops.ofInt 0) ∧
    ((since w (jack_proc_callback ops env n w).2).filter isWrite).length = CHANNELS * n ∧
    since w (jack_proc_callback ops env n w).2 =
      Event.jack_port_get_buffer (w.jack_ports 0) n ::
        Event.jack_port_get_buffer (w.jack_ports 1) n ::
        frame_writes n (fun _ _ => ops.ofInt 0) := by
  have hs2 : w.state ≠ PlaybackState.Playing := by
    rcases hs with h | h <;> rw [h] <;> decide
  have hq := proc_idle_eq ops env n w hc hs2
  have hsince := since_append w (jack_proc_callback ops env n w).2 _ (by rw [hq])
  refine ⟨by rw [hq], by rw [hq], ?_, ?_, hsince⟩
  · intro c p v
    rw [hsince]
    simp [write_mem_frame_writes, CHANNELS]
  · rw [hsince]
    simp [List.filter_cons, isWrite, filter_isWrite_frame_writes, length_frame_writes, CHANNELS]

/-- Witness of C1: a connected, paused world and 3 frames. -/
theorem proc_callback_idle_writes_silence_witness :
    (jack_proc_callback ratOps goodEnv 3 (connectedWorld PlaybackState.Paused)).1 = 0 ∧
    ((since (connectedWorld PlaybackState.Paused)
      (jack_proc_callback ratOps goodEnv 3 (connectedWorld PlaybackState.Paused)).2).filter
        isWrite).length = CHANNELS * 3 :=
  have h := proc_callback_idle_writes_silence ratOps goodEnv 3
    (connectedWorld PlaybackState.Paused) (by decide) (Or.inr rfl)
  ⟨h.1, h.2.2.2.1⟩

/-- C3, the code at a short read: 4 frames are asked for and the streamer
returns 4 bytes, one frame.  The callback stores the two converted samples of
frame 0 and nothing at the positions 1, 2 and 3 of either port buffer. -/
theorem proc_callback_short_read_no_zero_fill :
    (since (connectedWorld PlaybackState.Playing)
      (jack_proc_callback ratOps goodEnv 4 (connectedWorld PlaybackState.Playing)).2).filter
        isWrite =
      [Event.write 0 0 (convert ratOps 16384 (1 / 2)),
       Event.write 1 0 (convert ratOps (-16384) (1 / 2))] ∧
    ∀ c p v, 1 ≤ p → Event.write c p v ∉
      since (connectedWorld PlaybackState.Playing)
        (jack_proc_callback ratOps goodEnv 4 (connectedWorld PlaybackState.Playing)).2 := by
  have hq := proc_playing_eq ratOps goodEnv 4 (connectedWorld PlaybackState.Playing)
    (by decide) rfl (by decide)
  have hsince := since_append (connectedWorld PlaybackState.Playing)
    (jack_proc_callback ratOps goodEnv 4 (connectedWorld PlaybackState.Playing)).2 _ (by rw [hq])
  have h4 : toUnsigned (goodEnv.streamer_read (connectedWorld PlaybackState.Playing).now
      (sizeof_buf 4)).1 / 4 = 1 := by decide
  rw [h4] at hsince
  rw [hsince]
  constructor
  · simp only [List.filter_cons, isWrite, filter_isWrite_frame_writes]
    simp only [Bool.false_eq_true, if_false]
    have e0 : int16_at goodEnv.WORDS_BIGENDIAN
        (goodEnv.streamer_read (connectedWorld PlaybackState.Playing).now (sizeof_buf 4)).2
        (2 * 0 + 0) = 16384 := by decide
    have e1 : int16_at goodEnv.WORDS_BIGENDIAN
        (goodEnv.streamer_read (connectedWorld PlaybackState.Playing).now (sizeof_buf 4)).2
        (2 * 0 + 1) = -16384 := by decide
    have r1 : List.range 1 = [0] := rfl
    simp only [frame_writes, r1, List.flatMap_cons, List.flatMap_nil,
      List.append_nil, e0, e1]
    rfl
  · intro c p v hp hmem
    simp only [List.mem_cons, write_mem_frame_writes] at hmem
    simp at hmem
    omega

/-- C10: for every frame count `n`, when connected and Playing and the
streamer read returns the sentinel -1, the callback sets the playback state
to Stopped, stores nothing in either port buffer and returns 0; its only
event is the read. -/
theorem proc_callback_read_error_stops (ops : FloatOps F) (env : Env F) (n : Nat)
    (w : World F) (hc : w.jack_connected ≠ 0) (hs : w.state = PlaybackState.Playing)
    (hrd : (env.streamer_read w.now (sizeof_buf n)).1 = -1) :
    (jack_proc_callback ops env n w).1 = 0 ∧
    (jack_proc_callback ops env n w).2.state = PlaybackState.Stopped ∧
    (since w (jack_proc_callback ops env n w).2).filter isWrite = [] ∧
    since w (jack_proc_callback ops env n w).2 =
      [Event.streamer_read (sizeof_buf n) (-1) (env.streamer_read w.now (sizeof_buf n)).2] := by
  have hq : jack_proc_callback ops env n w =
      (0, { w with
        state := PlaybackState.Stopped,
        log := w.log ++ [Event.streamer_read (sizeof_buf n) (-1) (env.streamer_read w.now (sizeof_buf n)).2],
        now := w.now + 1 }) := by
    unfold jack_proc_callback
    simp only [hc, if_false, hs]
    simp [call, hrd, hs]
  have hsince := since_append w (jack_proc_callback ops env n w).2 _ (by rw [hq])
  refine ⟨by rw [hq], by rw [hq], ?_, hsince⟩
  rw [hsince]
  simp [isWrite]

/-- Witness of C10: a connected, playing world whose streamer reports a read
error, 4 frames asked for. -/
theorem proc_callback_read_error_stops_witness :
    (jack_proc_callback ratOps readErrorEnv 4 (connectedWorld PlaybackState.Playing)).1 = 0 ∧
    (jack_proc_callback ratOps readErrorEnv 4
      (connectedWorld PlaybackState.Playing)).2.state = PlaybackState.Stopped :=
  have h := proc_callback_read_error_stops ratOps readErrorEnv 4
    (connectedWorld PlaybackState.Playing) (by decide) rfl rfl
  ⟨h.1, h.2.1⟩

/-! ## Auxiliary facts about the teardown -/

theorem free_log (env : Env F) (w : World F) :
    (jack_free_deadbeef env w).2.log = w.log ++ teardown_log env w := by
  rcases w with ⟨ch, js, ports, st, ec, jc, dw, rt, nw, lg⟩
  cases ch <;> by_cases hd : dw = 0 <;>
    simp [teardown_log, since, jack_free_deadbeef, emit, call, jack_stop, hd] <;>
    split_ifs <;> simp

theorem free_connected (env : Env F) (w : World F) :
    (jack_free_deadbeef env w).2.jack_connected = 0 := by
  rcases w with ⟨ch, js, ports, st, ec, jc, dw, rt, nw, lg⟩
  cases ch <;> by_cases hd : dw = 0 <;>
    simp [teardown_log, since, jack_free_deadbeef, emit, call, jack_stop, hd] <;>
    split_ifs <;> simp

theorem free_state (env : Env F) (w : World F) :
    (jack_free_deadbeef env w).2.state =
      if w.DidWeStartJack = 0 then PlaybackState.Stopped else w.state := by
  rcases w with ⟨ch, js, ports, st, ec, jc, dw, rt, nw, lg⟩
  cases ch <;> by_cases hd : dw = 0 <;>
    simp [teardown_log, since, jack_free_deadbeef, emit, call, jack_stop, hd] <;>
    split_ifs <;> simp

theorem teardown_shape (env : Env F) (w : World F) :
    teardown_log env w =
      Event.enter Fn.jack_free_deadbeef :: Event.store_connected 0 ::
        (teardown_log env w).drop 2 ∧
    ∀ e ∈ (teardown_log env w).drop 2, teardownTail e = true := by
  rcases w with ⟨ch, js, ports, st, ec, jc, dw, rt, nw, lg⟩
  cases ch <;> by_cases hd : dw = 0 <;>
    simp [teardown_log, since, jack_free_deadbeef, emit, call, jack_stop, hd, teardownTail] <;>
    split_ifs <;> simp [teardownTail]

theorem teardown_countP (env : Env F) (w : World F) (p : Event F → Bool)
    (hp : ∀ e, teardownTail e = true → p e = false) :
    (teardown_log env w).countP p =
      (if p (Event.enter Fn.jack_free_deadbeef) then 1 else 0) +
      (if p (Event.store_connected 0) then 1 else 0) := by
  obtain ⟨h1, h2⟩ := teardown_shape env w
  have h3 : ((teardown_log env w).drop 2).countP p = 0 := by
    rw [List.countP_eq_zero]
    intro e he
    simp [hp e (h2 e he)]
  rw [h1, List.countP_cons, List.countP_cons, h3]
  omega

/-! ## Auxiliary facts about `jack_init` -/

theorem jack_init_stages (env : Env F) (w : World F) :
    jack_init env w =
      if (init_open env w).ch = none then
        abort_init env "jack: could not connect to JACK server\n" [] (init_open env w)
      else init_callbacks env (init_open env w) := rfl

theorem passedBy_refl (cls : Event F → Bool) (w : World F) : PassedBy cls w w :=
  ⟨[], by simp, by simp, rfl, rfl⟩

theorem passedBy_call (cls : Event F → Bool) (w0 w1 w2 : World F) (e : Event F)
    (h : PassedBy cls w0 w1) (hlog : w2.log = w1.log ++ [e]) (he : cls e = true)
    (hc : w2.jack_connected = w1.jack_connected) (hs : w2.state = w1.state) :
    PassedBy cls w0 w2 := by
  obtain ⟨l, h1, h2, h3, h4⟩ := h
  refine ⟨l ++ [e], by rw [hlog, h1, List.append_assoc], ?_, by rw [hc, h3], by rw [hs, h4]⟩
  intro x hx
  rcases List.mem_append.mp hx with hx | hx
  · exact h2 x hx
  · rw [List.mem_singleton.mp hx]; exact he

theorem setupStep_okStep (e : Event F) (h : setupStep e = true) : okStep e = true := by
  cases e <;> simp_all [setupStep, okStep]

theorem passedBy_okStep (w0 w1 : World F) (h : PassedBy setupStep w0 w1) :
    PassedBy okStep w0 w1 := by
  obtain ⟨l, h1, h2, h3, h4⟩ := h
  exact ⟨l, h1, fun e he => setupStep_okStep e (h2 e he), h3, h4⟩

theorem aborted_of (env : Env F) (w0 w1 X : World F) (e : Event F) (fmt : String)
    (args : List Arg) (h : PassedBy okStep w0 w1) (hlog : X.log = w1.log ++ [e])
    (he : stepFailedStored e = true) (hs : X.state = w1.state) :
    Aborted env w0 (abort_init env fmt args X).2 := by
  obtain ⟨l, h1, h2, _, h4⟩ := h
  refine ⟨l, e, fmt, args, call (Event.fprintf fmt args) X, ?_, h2, he, ?_, ?_⟩
  · simp [abort_init, free_log, call, hlog, h1]
  · simp [abort_init, free_connected]
  · simp only [abort_init, free_state]
    split_ifs
    · right; rfl
    · left; simp [call, hs, h4]

theorem register_ports_two (env : Env F) (w0 w : World F) (h : PassedBy setupStep w0 w) :
    ((register_ports env (List.range CHANNELS) w).1 = true ∧
      Aborted env w0 (register_ports env (List.range CHANNELS) w).2) ∨
    ((register_ports env (List.range CHANNELS) w).1 = false ∧
      ∃ p0 p1, (register_ports env (List.range CHANNELS) w).2 =
        { w with
          jack_ports := setPort (setPort w.jack_ports 0 (some p0)) 1 (some p1),
          now := w.now + 2,
          log := w.log ++ [Event.jack_port_register w.ch (port_name 0) (some p0),
            Event.jack_port_register w.ch (port_name 1) (some p1)] }) := by
  rw [range_channels]
  cases hp0 : env.jack_port_register w.now w.ch (port_name 0) with
  | none =>
    left
    simp only [register_ports, hp0, true_and]
    exact aborted_of env w0 w _ (Event.jack_port_register w.ch (port_name 0) none) _ _
      (passedBy_okStep _ _ h) (by simp [call]) (by simp [stepFailedStored]) (by simp [call])
  | some p0 =>
    cases hp1 : env.jack_port_register (w.now + 1) w.ch (port_name 1) with
    | none =>
      left
      simp only [register_ports, hp0, call, hp1, true_and]
      refine aborted_of env w0 (call (Event.jack_port_register w.ch (port_name 0) (some p0)) w) _
        (Event.jack_port_register w.ch (port_name 1) none) _ _ ?_ (by simp [call])
        (by simp [stepFailedStored]) (by simp [call])
      exact passedBy_call _ _ w _ (Event.jack_port_register w.ch (port_name 0) (some p0))
        (passedBy_okStep _ _ h) (by simp [call]) (by simp [okStep]) rfl rfl
    | some p1 =>
      right
      simp only [register_ports, hp0, call, hp1]
      exact ⟨trivial, p0, p1, by simp⟩

theorem okcode_of_not (r : Int) (h : ¬(toShort r ≠ 0 ∧ toShort r ≠ 17)) :
    toShort r = 0 ∨ toShort r = 17 := by
  by_contra hc
  exact h ⟨fun x => hc (Or.inl x), fun x => hc (Or.inr x)⟩

theorem connect_ports_two (env : Env F) (ps : List String) (w0 w : World F)
    (h : PassedBy okStep w0 w) :
    ((connect_ports env ps (List.range CHANNELS) w).1 = true ∧
      Aborted env w0 (connect_ports env ps (List.range CHANNELS) w).2) ∨
    ((connect_ports env ps (List.range CHANNELS) w).1 = false ∧
      ∃ r0 r1, (toShort r0 = 0 ∨ toShort r0 = 17) ∧ (toShort r1 = 0 ∨ toShort r1 = 17) ∧
        (connect_ports env ps (List.range CHANNELS) w).2 =
          { w with
            errcode := toShort r1,
            now := w.now + 2,
            log := w.log ++
              [Event.jack_connect w.ch (env.jack_port_name (w.jack_ports 0)) (ps.get? 0) r0,
               Event.jack_connect w.ch (env.jack_port_name (w.jack_ports 1)) (ps.get? 1) r1] }) := by
  rw [range_channels]
  simp only [connect_ports, call]
  generalize env.jack_connect w.now w.ch (env.jack_port_name (w.jack_ports 0)) (ps.get? 0) = r0
  generalize env.jack_connect (w.now + 1) w.ch (env.jack_port_name (w.jack_ports 1))
    (ps.get? 1) = r1
  by_cases h0 : toShort r0 ≠ 0 ∧ toShort r0 ≠ 17
  · left
    rw [if_pos h0]
    refine ⟨rfl, ?_⟩
    exact aborted_of env w0 w _
      (Event.jack_connect w.ch (env.jack_port_name (w.jack_ports 0)) (ps.get? 0) r0) _ _
      h rfl (by simpa [stepFailedStored] using h0) rfl
  · rw [if_neg h0]
    by_cases h1 : toShort r1 ≠ 0 ∧ toShort r1 ≠ 17
    · left
      rw [if_pos h1]
      refine ⟨rfl, ?_⟩
      refine aborted_of env w0
        (call (Event.jack_connect w.ch (env.jack_port_name (w.jack_ports 0)) (ps.get? 0) r0)
          { w with errcode := toShort r0 }) _
        (Event.jack_connect w.ch (env.jack_port_name (w.jack_ports 1)) (ps.get? 1) r1)
        _ _ ?_ rfl (by simpa [stepFailedStored] using h1) rfl
      refine passedBy_call _ _ w _ _ h rfl ?_ rfl rfl
      simpa [okStep] using okcode_of_not r0 h0
    · right
      rw [if_neg h1]
      exact ⟨rfl, r0, r1, okcode_of_not r0 h0, okcode_of_not r1 h1, by simp⟩

theorem autoconnect_outcome (env : Env F) (w0 w : World F) (h : PassedBy okStep w0 w) :
    ((autoconnect env w).1 = -1 ∧ Aborted env w0 (autoconnect env w).2) ∨
    ((autoconnect env w).1 = 0 ∧ ∃ c, (autoconnect env w).2.log = w.log ++ c ∧
      ConnectBlock env w.ch w.jack_ports c ∧
      (autoconnect env w).2.ch = w.ch ∧ (autoconnect env w).2.jack_ports = w.jack_ports ∧
      (autoconnect env w).2.jack_connected = w.jack_connected ∧
      (autoconnect env w).2.state = w.state) := by
  unfold autoconnect
  simp only []
  generalize env.conf_get_int w.now "jack.autoconnect" 1 = a
  by_cases ha : a ≠ 0
  · rw [if_pos ha]
    have hW1 : PassedBy okStep w0 (call (Event.conf_get_int "jack.autoconnect" 1 a) w) :=
      passedBy_call _ _ w _ _ h rfl (by simp [okStep]) rfl rfl
    generalize hps : env.jack_get_ports (call (Event.conf_get_int "jack.autoconnect" 1 a) w).now
      (call (Event.conf_get_int "jack.autoconnect" 1 a) w).ch = ports
    cases ports with
    | none =>
      right
      refine ⟨rfl, _, ?_, Or.inr (Or.inl ⟨a, ha, rfl⟩), rfl, rfl, rfl, rfl⟩
      simp [call]
    | some ps =>
      simp only []
      have hW2 : PassedBy okStep w0
          (call (Event.jack_get_ports (call (Event.conf_get_int "jack.autoconnect" 1 a) w).ch
            (some ps)) (call (Event.conf_get_int "jack.autoconnect" 1 a) w)) :=
        passedBy_call _ _ _ _ _ hW1 rfl (by simp [okStep]) rfl rfl
      rcases connect_ports_two env ps w0 _ hW2 with ⟨hf, hab⟩ | ⟨hf, r0, r1, h0, h1, heq⟩
      · left
        rw [hf]
        exact ⟨rfl, hab⟩
      · right
        rw [hf, heq]
        refine ⟨rfl, _, ?_, Or.inr (Or.inr ⟨a, ps, r0, r1, ha, h0, h1, rfl⟩), rfl, rfl, rfl, rfl⟩
        simp [call]
  · rw [if_neg ha]
    have ha0 : a = 0 := by
      by_contra hc
      exact ha hc
    right
    refine ⟨rfl, _, ?_, Or.inl rfl, rfl, rfl, rfl, rfl⟩
    simp [call, ha0]

theorem init_activate_outcome (env : Env F) (w0 w : World F) (h : SetupDone w0 w) :
    InitOutcome env w0 (init_activate env w) := by
  obtain ⟨l, h1, h2, h3, h4, h5⟩ := h
  have hP : PassedBy okStep w0 w := ⟨l, h1, fun e he => setupStep_okStep e (h2 e he), h3, h4⟩
  unfold init_activate
  simp only []
  generalize env.jack_activate w.now w.ch = r
  by_cases hr : (call (Event.jack_activate w.ch r) { w with errcode := toShort r }).errcode ≠ 0
  · rw [if_pos hr]
    left
    exact ⟨rfl, aborted_of env w0 w _ (Event.jack_activate w.ch r) _ _ hP rfl
      (by simpa [stepFailedStored, call] using hr) rfl⟩
  · rw [if_neg hr]
    have hr0 : toShort r = 0 := by
      by_contra hc
      exact hr (by simpa [call] using hc)
    have hP2 : PassedBy okStep w0 (call (Event.jack_activate w.ch r) { w with errcode := toShort r }) :=
      passedBy_call _ _ w _ _ hP rfl (by simp [okStep, hr0]) rfl rfl
    rcases autoconnect_outcome env w0 _ hP2 with ⟨hf, hab⟩ | ⟨hf, c, hc1, hc2, hc3, hc4, hc5, hc6⟩
    · left
      exact ⟨hf, hab⟩
    · right
      refine ⟨hf, l ++ [Event.jack_activate w.ch r], c, ?_, ?_, ?_, ?_, ?_, ?_⟩
      · rw [hc1]
        simp [call, h1]
      · intro e he
        rcases List.mem_append.mp he with he | he
        · exact h2 e he
        · rw [List.mem_singleton.mp he]
          simp [setupStep, okStep, hr0]
      · rw [hc3, hc4]
        exact hc2
      · rw [hc5]
        exact h3
      · rw [hc6]
        exact h4
      · intro i hi
        rw [hc3, hc4]
        exact ⟨(h5 i hi).1, List.mem_append_left _ (h5 i hi).2⟩

theorem init_register_outcome (env : Env F) (w0 w : World F) (h : PassedBy setupStep w0 w) :
    InitOutcome env w0 (init_register env w) := by
  unfold init_register
  simp only []
  have hP : PassedBy setupStep w0 (call (Event.jack_on_shutdown w.ch) w) :=
    passedBy_call _ _ w _ _ h rfl (by simp [setupStep, okStep]) rfl rfl
  rcases register_ports_two env w0 _ hP with ⟨hf, hab⟩ | ⟨hf, p0, p1, heq⟩
  · rw [hf]
    left
    exact ⟨rfl, hab⟩
  · rw [hf]
    simp only [Bool.false_eq_true, if_false]
    apply init_activate_outcome
    obtain ⟨l, h1, h2, h3, h4⟩ := hP
    rw [heq]
    refine ⟨l ++ [Event.jack_port_register w.ch (port_name 0) (some p0),
      Event.jack_port_register w.ch (port_name 1) (some p1)], ?_, ?_, ?_, ?_, ?_⟩
    · simp only [h1, List.append_assoc]
      rfl
    · intro e he
      rcases List.mem_append.mp he with he | he
      · exact h2 e he
      · simp only [List.mem_cons, List.mem_singleton, List.not_mem_nil, or_false] at he
        rcases he with he | he <;> rw [he] <;> simp [setupStep, okStep]
    · exact h3
    · exact h4
    · intro i hi
      have hi2 : i = 0 ∨ i = 1 := by
        have : i < 2 := hi
        omega
      rcases hi2 with hi2 | hi2 <;> subst hi2 <;> simp [setPort, call]

theorem init_callbacks_outcome (env : Env F) (w0 w : World F) (h : PassedBy setupStep w0 w) :
    InitOutcome env w0 (init_callbacks env w) := by
  have hP : PassedBy okStep w0 w := passedBy_okStep _ _ h
  unfold init_callbacks
  simp only []
  have hP1 : PassedBy setupStep w0 (init_rate env w) :=
    passedBy_call _ _ w _
      (Event.jack_get_sample_rate w.ch (env.jack_get_sample_rate w.now w.ch)) h rfl
      (by simp [setupStep, okStep]) rfl rfl
  generalize init_rate env w = w1 at hP1 ⊢
  generalize env.jack_set_process_callback w1.now w1.ch = r
  by_cases hr : (call (Event.jack_set_process_callback w1.ch r)
      { w1 with errcode := toShort r }).errcode ≠ 0
  · rw [if_pos hr]
    left
    exact ⟨rfl, aborted_of env w0 w1 _ (Event.jack_set_process_callback w1.ch r) _ _
      (passedBy_okStep _ _ hP1) rfl (by simpa [stepFailedStored, call] using hr) rfl⟩
  · rw [if_neg hr]
    have hr0 : toShort r = 0 := by
      by_contra hc
      exact hr (by simpa [call] using hc)
    generalize hw2 : call (Event.jack_set_process_callback w1.ch r)
      { w1 with errcode := toShort r } = w2
    have hP2 : PassedBy setupStep w0 w2 := by
      rw [← hw2]
      exact passedBy_call _ _ w1 _ _ hP1 rfl (by simp [setupStep, okStep, hr0]) rfl rfl
    generalize env.jack_set_sample_rate_callback w2.now w2.ch = r2
    by_cases hr2 : (call (Event.jack_set_sample_rate_callback w2.ch r2)
        { w2 with errcode := toShort r2 }).errcode ≠ 0
    · rw [if_pos hr2]
      left
      exact ⟨rfl, aborted_of env w0 w2 _ (Event.jack_set_sample_rate_callback w2.ch r2) _ _
        (passedBy_okStep _ _ hP2) rfl (by simpa [stepFailedStored, call] using hr2) rfl⟩
    · rw [if_neg hr2]
      have hr20 : toShort r2 = 0 := by
        by_contra hc
        exact hr2 (by simpa [call] using hc)
      apply init_register_outcome
      exact passedBy_call _ _ w2 _ _ hP2 rfl (by simp [setupStep, okStep, hr20]) rfl rfl

theorem init_autostart_passed (env : Env F) (w : World F) :
    PassedBy setupStep w (init_autostart env w).2 := by
  unfold init_autostart
  split_ifs
  · exact passedBy_call _ _ w _ _ (passedBy_refl _ w) rfl (by simp [setupStep, okStep]) rfl rfl
  · exact passedBy_refl _ w

theorem init_outcome (env : Env F) (w : World F) :
    InitOutcome env (init_entered w) (jack_init env w) := by
  rw [jack_init_stages]
  have hP := init_autostart_passed env (init_entered w)
  by_cases hch : (init_open env w).ch = none
  · rw [if_pos hch]
    left
    refine ⟨rfl, aborted_of env _ _ _
      (Event.jack_client_open JACK_CLIENT_NAME
        (env.JackNullOption |||
          (if env.JackNoStartServer ≠ 0 ∧ (init_autostart env (init_entered w)).1 = 0 then 1
            else 0)) none
        (env.jack_client_open (init_autostart env (init_entered w)).2.now JACK_CLIENT_NAME
          (env.JackNullOption |||
            (if env.JackNoStartServer ≠ 0 ∧ (init_autostart env (init_entered w)).1 = 0 then 1
              else 0))).2) _ _ (passedBy_okStep _ _ hP) ?_ (by simp [stepFailedStored]) rfl⟩
    have hch2 : (env.jack_client_open (init_autostart env (init_entered w)).2.now JACK_CLIENT_NAME
          (env.JackNullOption |||
            (if env.JackNoStartServer ≠ 0 ∧ (init_autostart env (init_entered w)).1 = 0 then 1
              else 0))).1 = none := hch
    simp only [init_open, call, hch2]
  · rw [if_neg hch]
    apply init_callbacks_outcome
    refine passedBy_call _ _ _ _ _ hP rfl ?_ rfl rfl
    have hch2 : (env.jack_client_open (init_autostart env (init_entered w)).2.now JACK_CLIENT_NAME
          (env.JackNullOption |||
            (if env.JackNoStartServer ≠ 0 ∧ (init_autostart env (init_entered w)).1 = 0 then 1
              else 0))).1 ≠ none := hch
    simpa [setupStep, okStep, Option.isSome_iff_ne_none] using hch2

theorem toShort_of_fits (r : Int) (h : fitsShort r = true) : toShort r = r := by
  simp only [fitsShort, decide_eq_true_eq] at h
  unfold toShort
  have : (r + 32768) % 65536 = r + 32768 := Int.emod_eq_of_lt (by omega) (by omega)
  omega

theorem ne_zero_of_toShort (r : Int) (h : toShort r ≠ 0) : r ≠ 0 := by
  intro h0
  rw [h0] at h
  exact h (by decide)

theorem ne_17_of_toShort (r : Int) (h : toShort r ≠ 17) : r ≠ 17 := by
  intro h0
  rw [h0] at h
  exact h (by decide)

theorem stepFailed_of_stored (e : Event F) (h : stepFailedStored e = true) :
    stepFailed e = true := by
  cases e <;> simp_all [stepFailedStored, stepFailed]
  · exact ne_zero_of_toShort _ h
  · exact ne_zero_of_toShort _ h
  · exact ne_zero_of_toShort _ h
  · exact ⟨ne_zero_of_toShort _ h.1, ne_17_of_toShort _ h.2⟩

theorem not_stepFailed_of_okStep (e : Event F) (h : okStep e = true) (hfit : codeFits e = true) :
    stepFailed e = false := by
  cases e <;> simp_all [stepFailed, okStep, codeFits]
  · rw [toShort_of_fits _ hfit] at h; exact h
  · rw [toShort_of_fits _ hfit] at h; exact h
  · rw [toShort_of_fits _ hfit] at h; exact h
  · rw [toShort_of_fits _ hfit] at h
    intro h0
    rcases h with h | h
    · exact absurd h h0
    · exact h

theorem connectBlock_okStep (env : Env F) (ch : Option Nat) (ports : Nat → Option Nat)
    (c : List (Event F)) (h : ConnectBlock env ch ports c) : ∀ e ∈ c, okStep e = true := by
  intro e he
  rcases h with h | ⟨a, _, h⟩ | ⟨a, ps, r0, r1, _, h0, h1, h⟩
  · rw [h] at he
    simp only [List.mem_singleton] at he
    rw [he]; rfl
  · rw [h] at he
    simp only [List.mem_cons, List.mem_singleton, List.not_mem_nil, or_false] at he
    rcases he with he | he | he <;> rw [he] <;> rfl
  · rw [h] at he
    simp only [List.mem_cons, List.mem_singleton, List.not_mem_nil, or_false] at he
    rcases he with he | he | he | he <;> rw [he] <;> simp [okStep, h0, h1]

theorem init_entered_log (w : World F) :
    (init_entered w).log = w.log ++ [Event.enter Fn.jack_init, Event.store_connected 1] := by
  simp [init_entered, emit]

theorem countP_eq_zero_of_class (p cls : Event F → Bool) (l : List (Event F))
    (hl : ∀ e ∈ l, cls e = true) (hp : ∀ e, cls e = true → p e = false) : l.countP p = 0 := by
  rw [List.countP_eq_zero]
  intro e he
  simp [hp e (hl e he)]

/-- The events of a call of `jack_init`, counted by a predicate `p` that holds
of no call of the function itself and of no event of the tail of the
teardown: the entry and the store of the flag and, when the call fails, the
entry and the store of the teardown. -/
theorem init_countP (env : Env F) (w : World F) (p : Event F → Bool)
    (h1 : ∀ e, okStep e = true → p e = false)
    (h2 : ∀ e, stepFailedStored e = true → p e = false)
    (h3 : ∀ e, teardownTail e = true → p e = false) :
    (since w (jack_init env w).2).countP p =
      (if p (Event.enter Fn.jack_init) then 1 else 0) +
      (if p (Event.store_connected 1) then 1 else 0) +
      (if (jack_init env w).1 = -1 then
        (if p (Event.enter Fn.jack_free_deadbeef) then 1 else 0) +
        (if p (Event.store_connected 0) then 1 else 0)
      else 0) := by
  have hfp : ∀ fmt args, p (Event.fprintf fmt args) = false := fun fmt args => h1 _ rfl
  rcases init_outcome env w with ⟨hr, l, e, fmt, args, X, hlog, hl, he, _, _⟩ |
      ⟨hr, l, c, hlog, hl, hc, _, _, _⟩
  · rw [init_entered_log] at hlog
    rw [since_append w _ _ (by rw [hlog, List.append_assoc]), hr]
    simp only [List.cons_append, List.nil_append, List.countP_cons, List.countP_append,
      List.countP_nil, teardown_countP env X p h3, h2 e he, hfp,
      countP_eq_zero_of_class p okStep l hl h1, if_true]
    simp
    omega
  · rw [init_entered_log] at hlog
    rw [since_append w _ _ (by rw [hlog, List.append_assoc]), hr]
    simp only [List.cons_append, List.nil_append, List.countP_cons, List.countP_append,
      List.countP_nil,
      countP_eq_zero_of_class p okStep l (fun e he => setupStep_okStep e (hl e he)) h1,
      countP_eq_zero_of_class p okStep c (connectBlock_okStep env _ _ c hc) h1]
    simp
    omega

theorem init_log (env : Env F) (w : World F) :
    (jack_init env w).2.log = w.log ++ since w (jack_init env w).2 := by
  rcases init_outcome env w with ⟨_, l, e, fmt, args, X, hlog, _⟩ | ⟨_, l, c, hlog, _⟩
  · rw [init_entered_log] at hlog
    rw [since_append w _ _ (by rw [hlog, List.append_assoc]), hlog, List.append_assoc]
  · rw [init_entered_log] at hlog
    rw [since_append w _ _ (by rw [hlog, List.append_assoc]), hlog, List.append_assoc]

theorem init_result (env : Env F) (w : World F) :
    ((jack_init env w).1 = 0 ∧ (jack_init env w).2.jack_connected = 1 ∧
      (jack_init env w).2.state = w.state) ∨
    ((jack_init env w).1 = -1 ∧ (jack_init env w).2.jack_connected = 0 ∧
      ((jack_init env w).2.state = w.state ∨
        (jack_init env w).2.state = PlaybackState.Stopped)) := by
  rcases init_outcome env w with ⟨hr, l, e, fmt, args, X, _, _, _, hc, hs⟩ |
      ⟨hr, l, c, _, _, _, hc, hs, _⟩
  · right
    exact ⟨hr, hc, hs⟩
  · left
    exact ⟨hr, hc, hs⟩

theorem play_connected (env : Env F) (w : World F) (h : w.jack_connected ≠ 0) :
    jack_play env w = (0, { w with state := PlaybackState.Playing }) := by
  unfold jack_play
  simp only []
  rw [if_neg h]

theorem play_init_ok (env : Env F) (w : World F) (h : w.jack_connected = 0)
    (hi : (jack_init env w).1 = 0) :
    jack_play env w = (0, { (jack_init env w).2 with state := PlaybackState.Playing }) := by
  unfold jack_play
  simp only []
  rw [if_pos h, if_neg (not_not.mpr hi)]

theorem play_init_fail (env : Env F) (w : World F) (h : w.jack_connected = 0)
    (hi : (jack_init env w).1 ≠ 0) :
    jack_play env w = (-1, (jack_free_deadbeef env (jack_init env w).2).2) := by
  unfold jack_play
  simp only []
  rw [if_pos h, if_pos hi]

theorem init_count_enter_init (env : Env F) (w : World F) :
    (since w (jack_init env w).2).countP (isEnter Fn.jack_init) = 1 := by
  rw [init_countP env w (isEnter Fn.jack_init)
    (fun e h => by cases e <;> simp_all [okStep, isEnter])
    (fun e h => by cases e <;> simp_all [stepFailedStored, isEnter])
    (fun e h => by cases e <;> simp_all [teardownTail, isEnter])]
  simp [isEnter]

theorem init_count_enter_free (env : Env F) (w : World F) :
    (since w (jack_init env w).2).countP (isEnter Fn.jack_free_deadbeef) =
      if (jack_init env w).1 = -1 then 1 else 0 := by
  rw [init_countP env w (isEnter Fn.jack_free_deadbeef)
    (fun e h => by cases e <;> simp_all [okStep, isEnter])
    (fun e h => by cases e <;> simp_all [stepFailedStored, isEnter])
    (fun e h => by cases e <;> simp_all [teardownTail, isEnter])]
  simp [isEnter]

theorem init_count_playback_stop (env : Env F) (w : World F) :
    (since w (jack_init env w).2).countP isPlaybackStop = 0 := by
  rw [init_countP env w isPlaybackStop
    (fun e h => by cases e <;> simp_all [okStep, isPlaybackStop])
    (fun e h => by cases e <;> simp_all [stepFailedStored, isPlaybackStop])
    (fun e h => by cases e <;> simp_all [teardownTail, isPlaybackStop])]
  simp [isPlaybackStop]

theorem teardown_count_enter_init (env : Env F) (w : World F) :
    (teardown_log env w).countP (isEnter Fn.jack_init) = 0 := by
  rw [teardown_countP env w _ (fun e h => by cases e <;> simp_all [teardownTail, isEnter])]
  simp [isEnter]

theorem teardown_count_enter_free (env : Env F) (w : World F) :
    (teardown_log env w).countP (isEnter Fn.jack_free_deadbeef) = 1 := by
  rw [teardown_countP env w _ (fun e h => by cases e <;> simp_all [teardownTail, isEnter])]
  simp [isEnter]

/-! ## Pause, teardown, unpause -/

/-- C4: for every playback state, `jack_pause` returns failure (-1) exactly
when the state is Stopped, and then changes nothing; from Playing or Paused
it returns success (0) and the state becomes Paused. -/
theorem jack_pause_fails_exactly_when_stopped (w : World F) :
    ((jack_pause w).1 = -1 ↔ w.state = PlaybackState.Stopped) ∧
    ((jack_pause w).1 = 0 ↔ w.state ≠ PlaybackState.Stopped) ∧
    (w.state = PlaybackState.Stopped → (jack_pause w).2 = w) ∧
    (w.state = PlaybackState.Playing ∨ w.state = PlaybackState.Paused →
      (jack_pause w).1 = 0 ∧ (jack_pause w).2.state = PlaybackState.Paused) := by
  unfold jack_pause
  by_cases h : w.state = PlaybackState.Stopped
  · simp [h]
  · simp [h]

/-- C5: whatever the world before (any playback state, either value of
`DidWeStartJack`, client pointer null or not, `jack_client_close` succeeding
or failing), after `jack_free_deadbeef` the connected flag is 0, and for every
frame count an invocation of the realtime callback in any world then returns
-1 and changes nothing: no read from the streamer, no store to a port buffer,
no change of the playback state. -/
theorem teardown_disconnects_callback (env : Env F) (w : World F) :
    (jack_free_deadbeef env w).2.jack_connected = 0 ∧
    ∀ (ops : FloatOps F) (env2 : Env F) (n : Nat),
      jack_proc_callback ops env2 n (jack_free_deadbeef env w).2 =
        (-1, (jack_free_deadbeef env w).2) ∧
      (since (jack_free_deadbeef env w).2
        (jack_proc_callback ops env2 n (jack_free_deadbeef env w).2).2) = [] := by
  have hc := free_connected env w
  refine ⟨hc, ?_⟩
  intro ops env2 n
  have h : jack_proc_callback ops env2 n (jack_free_deadbeef env w).2 =
      (-1, (jack_free_deadbeef env w).2) := by
    unfold jack_proc_callback
    simp [hc]
  rw [h]
  exact ⟨rfl, by simp [since]⟩

/-- C7 as stated fails: with a server that cannot be reached and the plugin
not connected, `jack_play` returns -1 and `jack_unpause` returns 0. -/
theorem jack_unpause_result_differs :
    (jack_play refuseEnv (World.initial : World Rat)).1 = -1 ∧
    (jack_unpause refuseEnv (World.initial : World Rat)).1 = 0 ∧
    (jack_unpause refuseEnv (World.initial : World Rat)).1 ≠
      (jack_play refuseEnv (World.initial : World Rat)).1 := by
  have hi : (jack_init refuseEnv (World.initial : World Rat)).1 = -1 := by
    rw [jack_init_stages]
    rfl
  have h1 : (jack_play refuseEnv (World.initial : World Rat)).1 = -1 := by
    rw [play_init_fail refuseEnv _ rfl (by rw [hi]; decide)]
  refine ⟨h1, rfl, ?_⟩
  rw [h1]
  decide

/-- C7 amended: for every world and every outcome of `jack_init`,
`jack_unpause` leaves every variable, the playback state and the connected
flag among them, and the log as `jack_play` does from the same world, and it
returns 0 whatever `jack_play` returns; so the two results are equal exactly
when `jack_play` succeeds. -/
theorem jack_unpause_runs_play (env : Env F) (w : World F) :
    (jack_unpause env w).2 = (jack_play env w).2 ∧
    (jack_unpause env w).2.state = (jack_play env w).2.state ∧
    (jack_unpause env w).2.jack_connected = (jack_play env w).2.jack_connected ∧
    (jack_unpause env w).1 = 0 ∧
    ((jack_unpause env w).1 = (jack_play env w).1 ↔ (jack_play env w).1 = 0) := by
  refine ⟨rfl, rfl, rfl, rfl, ?_⟩
  show (0 : Int) = (jack_play env w).1 ↔ (jack_play env w).1 = 0
  exact eq_comm

/-! ## Play and the shutdown handler -/

/-- C6: `jack_play`, for every playback state.  Connected: it logs nothing
(so `jack_init` is not called), sets the state to Playing and returns 0.  Not
connected: it calls `jack_init` exactly once; when that returns 0 it sets the
state to Playing and returns 0; when that fails it returns -1 and ends with a
run of `jack_free_deadbeef` (the second of the call, the first being the one
of `jack_init`), so the connected flag is 0, and it does not set the state to
Playing: the state is the one before or Stopped. -/
theorem jack_play_inits_when_disconnected (env : Env F) (w : World F) :
    (w.jack_connected ≠ 0 →
      (jack_play env w).1 = 0 ∧ (jack_play env w).2.state = PlaybackState.Playing ∧
      since w (jack_play env w).2 = [] ∧
      (since w (jack_play env w).2).countP (isEnter Fn.jack_init) = 0) ∧
    (w.jack_connected = 0 →
      (since w (jack_play env w).2).countP (isEnter Fn.jack_init) = 1 ∧
      ((jack_init env w).1 = 0 →
        (jack_play env w).1 = 0 ∧ (jack_play env w).2.state = PlaybackState.Playing) ∧
      ((jack_init env w).1 ≠ 0 →
        (jack_play env w).1 = -1 ∧
        (jack_play env w).2 = (jack_free_deadbeef env (jack_init env w).2).2 ∧
        (since w (jack_play env w).2).countP (isEnter Fn.jack_free_deadbeef) = 2 ∧
        (jack_play env w).2.jack_connected = 0 ∧
        ((jack_play env w).2.state = w.state ∨
          (jack_play env w).2.state = PlaybackState.Stopped))) := by
  constructor
  · intro h
    rw [play_connected env w h]
    simp [since]
  · intro h
    have hfail : (jack_init env w).1 ≠ 0 →
        since w (jack_play env w).2 =
          since w (jack_init env w).2 ++ teardown_log env (jack_init env w).2 := by
      intro hi
      rw [play_init_fail env w h hi]
      exact since_append w _ _ (by rw [free_log, init_log env w, List.append_assoc])
    have hok : (jack_init env w).1 = 0 →
        since w (jack_play env w).2 = since w (jack_init env w).2 := by
      intro hi
      rw [play_init_ok env w h hi]
      exact since_append w _ _ (init_log env w)
    refine ⟨?_, ?_, ?_⟩
    · by_cases hi : (jack_init env w).1 = 0
      · rw [hok hi, init_count_enter_init]
      · rw [hfail hi, List.countP_append, init_count_enter_init, teardown_count_enter_init]
    · intro hi
      rw [play_init_ok env w h hi]
      exact ⟨rfl, rfl⟩
    · intro hi
      have hm1 : (jack_init env w).1 = -1 := by
        rcases init_result env w with ⟨h0, _⟩ | ⟨h1, _⟩
        · exact absurd h0 hi
        · exact h1
      refine ⟨by rw [play_init_fail env w h hi], by rw [play_init_fail env w h hi], ?_, ?_, ?_⟩
      · rw [hfail hi, List.countP_append, init_count_enter_free, teardown_count_enter_free,
          if_pos hm1]
      · rw [play_init_fail env w h hi]
        exact free_connected env _
      · rw [play_init_fail env w h hi]
        simp only [free_state]
        split_ifs
        · right; rfl
        · rcases init_result env w with ⟨_, _, hs⟩ | ⟨_, _, hs⟩
          · left; exact hs
          · exact hs

/-- Witness of C6, from the initial world: with a server that cannot be
reached `jack_play` returns -1 and leaves the connected flag 0; with a server
that accepts every call it returns 0 in the state Playing. -/
theorem jack_play_inits_when_disconnected_witness :
    ((jack_play refuseEnv (World.initial : World Rat)).1 = -1 ∧
      (jack_play refuseEnv (World.initial : World Rat)).2.jack_connected = 0) ∧
    ((jack_play goodEnv (World.initial : World Rat)).1 = 0 ∧
      (jack_play goodEnv (World.initial : World Rat)).2.state = PlaybackState.Playing) :=
  have hf := ((jack_play_inits_when_disconnected refuseEnv
    (World.initial : World Rat)).2 rfl).2.2 (by decide)
  have hg := ((jack_play_inits_when_disconnected goodEnv
    (World.initial : World Rat)).2 rfl).2.1 (by decide)
  ⟨⟨hf.1, hf.2.2.2.1⟩, hg⟩

/-- C8: `jack_shutdown_callback`.  Not connected: it returns -1 and changes
nothing.  Connected: it returns 0; its first two events are the store of 0 to
the connected flag and then the read of the autorestart setting; with the
setting 0 it calls `playback_stop` exactly once, never `jack_init`, and the
flag stays 0; with the setting not 0 it calls `jack_init` exactly once and
never `playback_stop`. -/
theorem shutdown_callback_policy (env : Env F) (w : World F) :
    (w.jack_connected = 0 → jack_shutdown_callback env w = (-1, w)) ∧
    (w.jack_connected ≠ 0 →
      (jack_shutdown_callback env w).1 = 0 ∧
      (since w (jack_shutdown_callback env w).2).take 2 =
        [Event.store_connected 0,
         Event.conf_get_int "jack.autorestart" 0 (env.conf_get_int w.now "jack.autorestart" 0)] ∧
      (env.conf_get_int w.now "jack.autorestart" 0 = 0 →
        (since w (jack_shutdown_callback env w).2).countP isPlaybackStop = 1 ∧
        (since w (jack_shutdown_callback env w).2).countP (isEnter Fn.jack_init) = 0 ∧
        (jack_shutdown_callback env w).2.jack_connected = 0) ∧
      (env.conf_get_int w.now "jack.autorestart" 0 ≠ 0 →
        (since w (jack_shutdown_callback env w).2).countP (isEnter Fn.jack_init) = 1 ∧
        (since w (jack_shutdown_callback env w).2).countP isPlaybackStop = 0)) := by
  constructor
  · intro h
    unfold jack_shutdown_callback
    rw [if_pos h]
  · intro h
    unfold jack_shutdown_callback
    rw [if_neg h]
    simp only []
    generalize hW : emit (Event.store_connected 0) { w with jack_connected := 0 } = W
    have hWlog : W.log = w.log ++ [Event.store_connected 0] := by rw [← hW]; rfl
    have hWnow : W.now = w.now := by rw [← hW]; rfl
    have hWc : W.jack_connected = 0 := by rw [← hW]; rfl
    rw [hWnow]
    generalize env.conf_get_int w.now "jack.autorestart" 0 = a
    by_cases ha : a ≠ 0
    · rw [if_pos ha]
      generalize hV : call (Event.sleep 1) (call (Event.fprintf
        "jack: JACK server shut down unexpectedly, restarting...\n" [])
        (call (Event.conf_get_int "jack.autorestart" 0 a) W)) = V
      have hVlog : V.log = w.log ++ [Event.store_connected 0,
          Event.conf_get_int "jack.autorestart" 0 a,
          Event.fprintf "jack: JACK server shut down unexpectedly, restarting...\n" [],
          Event.sleep 1] := by
        rw [← hV]
        simp [call, hWlog]
      have hs : since w (jack_init env V).2 =
          [Event.store_connected 0, Event.conf_get_int "jack.autorestart" 0 a,
            Event.fprintf "jack: JACK server shut down unexpectedly, restarting...\n" [],
            Event.sleep 1] ++ since V (jack_init env V).2 :=
        since_append w _ _ (by rw [init_log env V, hVlog, List.append_assoc])
      refine ⟨rfl, ?_, fun h0 => absurd h0 ha, fun _ => ⟨?_, ?_⟩⟩
      · show (since w (jack_init env V).2).take 2 = _
        rw [hs]
        rfl
      · show (since w (jack_init env V).2).countP (isEnter Fn.jack_init) = 1
        rw [hs, List.countP_append, init_count_enter_init]
        simp [isEnter, List.countP_cons]
      · show (since w (jack_init env V).2).countP isPlaybackStop = 0
        rw [hs, List.countP_append, init_count_playback_stop]
        simp [isPlaybackStop, List.countP_cons]
    · rw [if_neg ha]
      have hs : since w (call Event.playback_stop (call (Event.fprintf
          "jack: JACK server shut down unexpectedly, stopping playback\n" [])
          (call (Event.conf_get_int "jack.autorestart" 0 a) W))) =
          [Event.store_connected 0, Event.conf_get_int "jack.autorestart" 0 a,
            Event.fprintf "jack: JACK server shut down unexpectedly, stopping playback\n" [],
            Event.playback_stop] :=
        since_append w _ _ (by simp [call, hWlog])
      refine ⟨rfl, ?_, fun _ => ⟨?_, ?_, ?_⟩, fun h0 => absurd h0 ha⟩
      · simp only [hs]
        rfl
      · simp only [hs]
        simp [isPlaybackStop, List.countP_cons]
      · simp only [hs]
        simp [isEnter, List.countP_cons]
      · simp only [call, hWc]

/-- Witness of C8, in a connected, playing world: with autorestart off the
handler calls `playback_stop` once, with autorestart on it calls `jack_init`
once. -/
theorem shutdown_callback_policy_witness :
    (since (connectedWorld PlaybackState.Playing)
      (jack_shutdown_callback goodEnv (connectedWorld PlaybackState.Playing)).2).countP
        isPlaybackStop = 1 ∧
    (since (connectedWorld PlaybackState.Playing)
      (jack_shutdown_callback restartEnv (connectedWorld PlaybackState.Playing)).2).countP
        (isEnter Fn.jack_init) = 1 :=
  ⟨(((shutdown_callback_policy goodEnv (connectedWorld PlaybackState.Playing)).2
      (by decide)).2.2.1 rfl).1,
   (((shutdown_callback_policy restartEnv (connectedWorld PlaybackState.Playing)).2
      (by decide)).2.2.2 (by decide)).1⟩

/-! ## Initialisation -/

theorem filter_eq_nil_of_class (p cls : Event F → Bool) (l : List (Event F))
    (hl : ∀ e ∈ l, cls e = true) (hp : ∀ e, cls e = true → p e = false) : l.filter p = [] := by
  rw [List.filter_eq_nil_iff]
  intro e he
  simp [hp e (hl e he)]

/-- The function `jack_init` when the codes returned to it are values of
`short`, the type of `errcode`, for every world and every outcome of its calls.
(1) If a step of the call failed (a null client, a non-zero code from either
callback registration, a null port, a non-zero code from the activation, a
code other than 0 and 17 from a connection), the function returns -1, its
last events are a run of `jack_free_deadbeef`, the only one of the call, and
the connected flag is 0 on return.
(2) If no step failed, a connection code 17 not being a failure, it returns 0
with the connected flag 1.
(3) If it returns 0 and `jack_get_ports` answered the list `ps` of at least 2
ports, its `jack_connect` calls are exactly two: port `jack_ports[0]` to
`ps[0]` and port `jack_ports[1]` to `ps[1]`, each answered 0 or 17, where
`jack_ports[i]` is the port registered under the name `deadbeef_(i+1)`. -/
theorem jack_init_aborts_when_codes_fit (env : Env F) (w : World F)
    (hfit : ∀ e ∈ since w (jack_init env w).2, codeFits e = true) :
    ((∃ e ∈ since w (jack_init env w).2, stepFailed e = true) →
      (jack_init env w).1 = -1 ∧ (jack_init env w).2.jack_connected = 0 ∧
      (since w (jack_init env w).2).countP (isEnter Fn.jack_free_deadbeef) = 1 ∧
      ∃ before X, since w (jack_init env w).2 = before ++ teardown_log env X) ∧
    ((∀ e ∈ since w (jack_init env w).2, stepFailed e = false) →
      (jack_init env w).1 = 0 ∧ (jack_init env w).2.jack_connected = 1) ∧
    (∀ ch ps, (jack_init env w).1 = 0 →
      Event.jack_get_ports ch (some ps) ∈ since w (jack_init env w).2 → 2 ≤ ps.length →
      ∃ d0 d1 r0 r1, ps.get? 0 = some d0 ∧ ps.get? 1 = some d1 ∧
        (r0 = 0 ∨ r0 = 17) ∧ (r1 = 0 ∨ r1 = 17) ∧
        (since w (jack_init env w).2).filter isConnect =
          [Event.jack_connect (jack_init env w).2.ch
              (env.jack_port_name ((jack_init env w).2.jack_ports 0)) (some d0) r0,
           Event.jack_connect (jack_init env w).2.ch
              (env.jack_port_name ((jack_init env w).2.jack_ports 1)) (some d1) r1] ∧
        ∀ i, i < CHANNELS → ((jack_init env w).2.jack_ports i).isSome = true ∧
          Event.jack_port_register (jack_init env w).2.ch (port_name i)
            ((jack_init env w).2.jack_ports i) ∈ since w (jack_init env w).2) := by
  rcases init_outcome env w with ⟨hr, l, e, fmt, args, X, hlog, hl, he, hc, _⟩ |
      ⟨hr, l, c, hlog, hl, hcb, hc, _, hreg⟩
  · -- the call failed
    rw [init_entered_log] at hlog
    have hs : since w (jack_init env w).2 =
        Event.enter Fn.jack_init :: Event.store_connected 1 ::
          (l ++ e :: Event.fprintf fmt args :: teardown_log env X) :=
      since_append w _ _ (by rw [hlog, List.append_assoc]; rfl)
    refine ⟨fun _ => ⟨hr, hc, ?_, ?_⟩, ?_, ?_⟩
    · rw [init_count_enter_free, if_pos hr]
    · refine ⟨Event.enter Fn.jack_init :: Event.store_connected 1 ::
        (l ++ [e, Event.fprintf fmt args]), X, ?_⟩
      rw [hs]
      simp
    · intro hall
      have hmem : e ∈ since w (jack_init env w).2 := by
        rw [hs]
        simp
      have := hall e hmem
      rw [stepFailed_of_stored e he] at this
      exact absurd this (by decide)
    · intro ch ps h0
      rw [hr] at h0
      exact absurd h0 (by decide)
  · -- the call succeeded
    rw [init_entered_log] at hlog
    have hs : since w (jack_init env w).2 =
        Event.enter Fn.jack_init :: Event.store_connected 1 :: (l ++ c) :=
      since_append w _ _ (by rw [hlog, List.append_assoc]; rfl)
    have hcok := connectBlock_okStep env _ _ c hcb
    refine ⟨?_, fun _ => ⟨hr, hc⟩, ?_⟩
    · rintro ⟨x, hx, hxf⟩
      have hfx := hfit x hx
      rw [hs] at hx
      simp only [List.mem_cons, List.mem_append] at hx
      rcases hx with hx | hx | hx | hx
      · rw [hx] at hxf; exact absurd hxf (by simp [stepFailed])
      · rw [hx] at hxf; exact absurd hxf (by simp [stepFailed])
      · rw [not_stepFailed_of_okStep x (setupStep_okStep x (hl x hx)) hfx] at hxf
        exact absurd hxf (by decide)
      · rw [not_stepFailed_of_okStep x (hcok x hx) hfx] at hxf
        exact absurd hxf (by decide)
    · intro ch ps _ hmem hlen
      rw [hs] at hmem
      simp only [List.mem_cons, List.mem_append] at hmem
      have hmc : Event.jack_get_ports ch (some ps) ∈ c := by
        rcases hmem with hx | hx | hx | hx
        · exact absurd hx (by simp)
        · exact absurd hx (by simp)
        · exact absurd (hl _ hx) (by simp [setupStep])
        · exact hx
      rcases hcb with hcb | ⟨a, _, hcb⟩ | ⟨a, ps2, r0, r1, _, h0, h1, hcb⟩
      · rw [hcb] at hmc
        simp at hmc
      · rw [hcb] at hmc
        simp at hmc
      · have hps : ps2 = ps := by
          rw [hcb] at hmc
          simp at hmc
          exact hmc.2.symm
        subst hps
        have hf0 : codeFits (Event.jack_connect (jack_init env w).2.ch
            (env.jack_port_name ((jack_init env w).2.jack_ports 0)) (ps2.get? 0) r0 :
              Event F) = true :=
          hfit _ (by rw [hs, hcb]; simp)
        have hf1 : codeFits (Event.jack_connect (jack_init env w).2.ch
            (env.jack_port_name ((jack_init env w).2.jack_ports 1)) (ps2.get? 1) r1 :
              Event F) = true :=
          hfit _ (by rw [hs, hcb]; simp)
        simp only [codeFits] at hf0 hf1
        rw [toShort_of_fits r0 hf0] at h0
        rw [toShort_of_fits r1 hf1] at h1
        have hd0 : ps2.get? 0 = some (ps2.get ⟨0, by omega⟩) := List.get?_eq_get _
        have hd1 : ps2.get? 1 = some (ps2.get ⟨1, by omega⟩) := List.get?_eq_get _
        refine ⟨ps2.get ⟨0, by omega⟩, ps2.get ⟨1, by omega⟩, r0, r1, hd0, hd1, h0, h1, ?_, ?_⟩
        · rw [hs, hcb, ← hd0, ← hd1]
          simp only [List.filter_cons, List.filter_append, isConnect,
            filter_eq_nil_of_class isConnect setupStep l hl
              (fun e h => by cases e <;> simp_all [setupStep, isConnect])]
          simp
        · intro i hi
          refine ⟨(hreg i hi).1, ?_⟩
          rw [hs]
          simp only [List.mem_cons, List.mem_append]
          right; right; left
          exact (hreg i hi).2

/-- Two runs of `jack_init` from the initial world with codes that are
values of `short`: an activation that fails with -1 makes it return -1 with
the connected flag 0, and connections that all answer 17 let it return 0 with
the flag 1. -/
theorem jack_init_aborts_when_codes_fit_example :
    ((jack_init activateFailEnv (World.initial : World Rat)).1 = -1 ∧
      (jack_init activateFailEnv (World.initial : World Rat)).2.jack_connected = 0) ∧
    ((jack_init connectedEnv (World.initial : World Rat)).1 = 0 ∧
      (jack_init connectedEnv (World.initial : World Rat)).2.jack_connected = 1) :=
  have h := (jack_init_aborts_when_codes_fit activateFailEnv (World.initial : World Rat)
    (by decide)).1 (List.countP_pos_iff.mp (by decide))
  ⟨⟨h.1, h.2.1⟩,
    (jack_init_aborts_when_codes_fit connectedEnv (World.initial : World Rat) (by decide)).2.1
      (by decide)⟩

/-- C9, the code at a failing step whose code is no value of `short`.  From
the initial world, every other call succeeding, `jack_activate` answers 65536:
a failure, being a non-zero code.  The function stores the code in the `short`
variable `errcode`, where it is 0, takes the activation for a success, goes on
to connect the ports and returns 0 with the connected flag 1 and without a run
of `jack_free_deadbeef`.  In the same way two `jack_connect` calls that answer
65553, a code other than 0 and 17, are stored as 17 and taken for success. -/
theorem jack_init_misses_truncated_code :
    toShort 65536 = 0 ∧
    (since (World.initial : World Rat)
      (jack_init wideCodeEnv (World.initial : World Rat)).2).get? 10 =
        some (Event.jack_activate (some 1) 65536) ∧
    stepFailed (Event.jack_activate (some 1) 65536 : Event Rat) = true ∧
    (jack_init wideCodeEnv (World.initial : World Rat)).1 = 0 ∧
    (jack_init wideCodeEnv (World.initial : World Rat)).2.jack_connected = 1 ∧
    (since (World.initial : World Rat)
      (jack_init wideCodeEnv (World.initial : World Rat)).2).countP
        (isEnter Fn.jack_free_deadbeef) = 0 ∧
    (since (World.initial : World Rat)
      (jack_init wideCodeEnv (World.initial : World Rat)).2).countP isConnect = 2 ∧
    toShort 65553 = 17 ∧
    (since (World.initial : World Rat)
      (jack_init wideConnectEnv (World.initial : World Rat)).2).countP stepFailed = 2 ∧
    (jack_init wideConnectEnv (World.initial : World Rat)).1 = 0 ∧
    (jack_init wideConnectEnv (World.initial : World Rat)).2.jack_connected = 1 ∧
    (since (World.initial : World Rat)
      (jack_init wideConnectEnv (World.initial : World Rat)).2).countP
        (isEnter Fn.jack_free_deadbeef) = 0 := by
  refine ⟨by decide, rfl, rfl, by decide, by decide, by decide, by decide, by decide,
    by decide, by decide, by decide, by decide⟩

/-- A run of `jack_init` from the initial world with every call succeeding
and two physical playback ports: it returns 0 and its `jack_connect` calls are
exactly two, each registered port to the physical port of its index. -/
theorem jack_init_connects_two_ports_example :
    (jack_init goodEnv (World.initial : World Rat)).1 = 0 ∧
    ∃ r0 r1, (since (World.initial : World Rat)
        (jack_init goodEnv (World.initial : World Rat)).2).filter isConnect =
      [Event.jack_connect (jack_init goodEnv (World.initial : World Rat)).2.ch
          (goodEnv.jack_port_name ((jack_init goodEnv (World.initial : World Rat)).2.jack_ports 0))
          (some "system:playback_1") r0,
       Event.jack_connect (jack_init goodEnv (World.initial : World Rat)).2.ch
          (goodEnv.jack_port_name ((jack_init goodEnv (World.initial : World Rat)).2.jack_ports 1))
          (some "system:playback_2") r1] := by
  have h0 : (jack_init goodEnv (World.initial : World Rat)).1 = 0 := by decide
  have hg : (since (World.initial : World Rat)
      (jack_init goodEnv (World.initial : World Rat)).2).get? 12 =
        some (Event.jack_get_ports (some 1) (some ["system:playback_1", "system:playback_2"])) :=
    rfl
  have hm : Event.jack_get_ports (some 1) (some ["system:playback_1", "system:playback_2"]) ∈
      since (World.initial : World Rat) (jack_init goodEnv (World.initial : World Rat)).2 :=
    List.get?_mem hg
  obtain ⟨d0, d1, r0, r1, hd0, hd1, _, _, hf, _⟩ :=
    (jack_init_aborts_when_codes_fit goodEnv (World.initial : World Rat) (by decide)).2.2
      (some 1) ["system:playback_1", "system:playback_2"] h0 hm (by decide)
  have e0 : d0 = "system:playback_1" := by
    have : some "system:playback_1" = some d0 := hd0
    exact (Option.some.inj this).symm
  have e1 : d1 = "system:playback_2" := by
    have : some "system:playback_2" = some d1 := hd1
    exact (Option.some.inj this).symm
  subst e0 e1
  exact ⟨h0, r0, r1, hf⟩

end Jack
